import Mathlib

/-!
Verification development for the routeBall frame pipeline.

Shallow embedding of the repository's Python modules:
* `capture.py`  — `GlassCapture`: frame source with a thread-safe latest-frame slot;
* `storage.py`  — `VideoStorage`: recorder with size-based file rotation;
* `stream.py`   — snapshot responder and the MJPEG generator loop;
* `main.py`     — orchestration: startup connection failure and the shutdown handler.

Frames are heap-allocated objects (numpy arrays): we model the heap explicitly as a
list of frame values and references as indices into it, so that aliasing (which
object the latest-frame slot holds versus which object a caller received) is
faithfully represented. External collaborators (cv2 reads, the JPEG encoder, the
filesystem's reported file size, timestamp-derived paths, whether a cv2 writer
opens) are parameters supplied at each call, exactly at the interface the spec
draws around them.
-/

namespace RouteBall

/-- One decoded raster image.  `frame.shape[:2]` in the source is `(height, width)`;
`data` stands for the pixel bytes. -/
structure Frame where
  height : Nat
  width : Nat
  data : List Nat
deriving DecidableEq, Repr

/-- State of `GlassCapture` (capture.py).  `heap` is the set of live frame objects
(references are indices); `cap` models `_cap is not None`; `running` models
`_running`; `latest` is the reference held by `_latest_frame` (the LatestFrameSlot). -/
structure CaptureState where
  heap : List Frame
  running : Bool
  cap : Bool
  latest : Option Nat
deriving DecidableEq, Repr

/-- `GlassCapture.__init__`: no transport, not running, empty slot. -/
def initCapture : CaptureState :=
  { heap := [], running := false, cap := false, latest := none }

/-- `GlassCapture.read_frame`.  `capRead` is the outcome of `self._cap.read()`
(`none` when `ret` is false).  On success the frame object is allocated, the slot
is overwritten with a reference to that very object, and the same reference is
returned. -/
def read_frame (s : CaptureState) (capRead : Option Frame) : Option Nat × CaptureState :=
  if s.cap && s.running then
    match capRead with
    | none => (none, s)
    | some f =>
      (some s.heap.length,
       { s with heap := s.heap ++ [f], latest := some s.heap.length })
  else
    (none, s)

/-- The value currently held by the LatestFrameSlot (dereferencing the
`_latest_frame` reference; `none` when the slot is empty). -/
def slotVal (s : CaptureState) : Option Frame :=
  s.latest.bind fun i => s.heap[i]?

/-- `GlassCapture.latest_frame`: `self._latest_frame.copy() if self._latest_frame
is not None else None`.  Returns `none` when the slot is empty; otherwise
allocates a fresh copy of the slot's object and returns a reference to the copy,
leaving the slot untouched. -/
def latest_frame (s : CaptureState) : Option Nat × CaptureState :=
  match slotVal s with
  | none => (none, s)
  | some f => (some s.heap.length, { s with heap := s.heap ++ [f] })

/-- In-place mutation of the frame object behind reference `r` (a caller writing
into a numpy array it received). -/
def mutateFrame (s : CaptureState) (r : Nat) (f : Frame) : CaptureState :=
  { s with heap := s.heap.set r f }

/-- The value of the frame object `latest_frame` hands back, `none` when it
returns no frame. -/
def latestFrameVal (s : CaptureState) : Option Frame :=
  match latest_frame s with
  | (some r, s') => s'.heap[r]?
  | (none, _) => none

/-- `GlassCapture.stop`: `_running = False`, release and drop the transport.
The slot and the heap are not touched. -/
def stopCapture (s : CaptureState) : CaptureState :=
  { s with running := false, cap := false }

/-- `GlassCapture.is_running`. -/
def is_running (s : CaptureState) : Bool :=
  s.running

/-- Error kinds raised by `VideoStorage` (storage.py): `RuntimeError` for a write
before open (the InvalidState kind), `IOError` for a writer that failed to open. -/
inductive StorageError where
  | invalidState
  | ioError
deriving DecidableEq, Repr

/-- A `cv2.VideoWriter` as `VideoStorage` uses it: the resolution/fps it was bound
to, whether `isOpened()`, and the frames written through it (the contents of the
file it backs). -/
structure Writer where
  width : Nat
  height : Nat
  fps : Nat
  opened : Bool
  frames : List Frame
deriving DecidableEq, Repr

/-- State of `VideoStorage`.  Paths are abstract identifiers (timestamp-derived
names): `currentPath` is `_current_path`.  `closedSessions` records each writer
at the moment it was released, i.e. the finalized files on disk. -/
structure VideoStorage where
  maxFileSizeMB : Int
  writer : Option Writer
  currentPath : Option Nat
  frameCount : Nat
  fps : Nat
  closedSessions : List Writer
deriving DecidableEq, Repr

/-- `StorageConfig` (config.py): the field the storage state machine reads. -/
structure StorageConfig where
  maxFileSizeMB : Int
deriving DecidableEq, Repr

/-- `VideoStorage.__init__`. -/
def initStorage (cfg : StorageConfig) : VideoStorage :=
  { maxFileSizeMB := cfg.maxFileSizeMB, writer := none, currentPath := none,
    frameCount := 0, fps := 30, closedSessions := [] }

/-- `VideoStorage.open`.  `path` is the fresh timestamp-derived path;
`writerOpens` is whether the cv2 writer's `isOpened()` holds.  The source sets
`_fps`, `_current_path` and `_writer` before checking `isOpened()`, and resets
`_frame_count` only after that check, so on `IOError` the state keeps the new
path and the unopened writer. -/
def openStorage (s : VideoStorage) (width height fps : Nat) (path : Nat)
    (writerOpens : Bool) : VideoStorage × Except StorageError Nat :=
  let s1 := { s with fps := fps, currentPath := some path,
                     writer := some { width := width, height := height, fps := fps,
                                      opened := writerOpens, frames := [] } }
  if writerOpens then
    ({ s1 with frameCount := 0 }, Except.ok path)
  else
    (s1, Except.error StorageError.ioError)

/-- `VideoStorage.close`: release the writer if there is one (finalizing the
current file); a no-op otherwise.  `_current_path` and `_frame_count` are kept. -/
def closeStorage (s : VideoStorage) : VideoStorage :=
  match s.writer with
  | none => s
  | some w => { s with writer := none, closedSessions := s.closedSessions ++ [w] }

/-- `VideoStorage._should_rotate`.  `sizeObs` is `stat().st_size` of the current
file in bytes, `none` when the stat raises `FileNotFoundError`.  The source
compares `size / (1024*1024) >= max_file_size_mb`; division by `2^20` is exact,
so the comparison is `max * 1048576 <= size` over the integers. -/
def should_rotate (s : VideoStorage) (sizeObs : Option Nat) : Bool :=
  if s.maxFileSizeMB ≤ 0 then false
  else
    match s.currentPath, sizeObs with
    | none, _ => false
    | some _, none => false
    | some _, some bytes => decide (s.maxFileSizeMB * 1048576 ≤ (bytes : Int))

/-- `VideoStorage.write_frame`.  Raises the InvalidState kind before `open()`;
otherwise writes the frame, bumps the counter, and if the rotation check fires,
closes the session and re-opens with `open(w, h, self._fps)` where
`h, w = frame.shape[:2]`.  `sizeObs` is the on-disk size observed by the check,
`rotPath`/`rotWriterOpens` feed the re-open when it happens. -/
def write_frame (s : VideoStorage) (frame : Frame) (sizeObs : Option Nat)
    (rotPath : Nat) (rotWriterOpens : Bool) : VideoStorage × Except StorageError Unit :=
  match s.writer with
  | none => (s, Except.error StorageError.invalidState)
  | some w =>
    let s1 := { s with writer := some { w with frames := w.frames ++ [frame] },
                       frameCount := s.frameCount + 1 }
    if should_rotate s1 sizeObs then
      let s2 := closeStorage s1
      let (s3, r) := openStorage s2 frame.width frame.height s1.fps rotPath rotWriterOpens
      match r with
      | Except.ok _ => (s3, Except.ok ())
      | Except.error e => (s3, Except.error e)
    else
      (s1, Except.ok ())

/-- Result of the `/snapshot` responder (stream.py): the three error dictionaries
it can return, or a streamed single JPEG.  Every outcome is an ordinary return
value — the responder is a total function and raises nothing. -/
inductive SnapshotResult where
  | errorNoSource
  | errorNoFrame
  | errorEncodeFailed
  | image (bytes : List Nat)
deriving DecidableEq, Repr

/-- The `snapshot` endpoint.  `src` is the module-level `_frame_source`
(`none` until `set_frame_source` is called); `encode q f` is
`cv2.imencode(".jpg", f, [IMWRITE_JPEG_QUALITY, q])`, `none` when `ret` is
false.  The source encodes at quality 90. -/
def snapshot (src : Option CaptureState) (encode : Nat → Frame → Option (List Nat)) :
    SnapshotResult :=
  match src with
  | none => SnapshotResult.errorNoSource
  | some s =>
    match latestFrameVal s with
    | none => SnapshotResult.errorNoFrame
    | some f =>
      match encode 90 f with
      | none => SnapshotResult.errorEncodeFailed
      | some bs => SnapshotResult.image bs

/-- What one pass of the `while True` body of `_generate_mjpeg` does:
the three `continue` branches, or a `yield` of one multipart chunk. -/
inductive LoopAction where
  | retryNoSource
  | retryNoFrame
  | retryEncodeFailed
  | yieldPart (bytes : List Nat)
deriving DecidableEq, Repr

/-- One iteration of the generator loop: the action taken, and the milliseconds
it sleeps or backs off before the next iteration begins. -/
structure MjpegIter where
  action : LoopAction
  sleepMs : Nat
deriving DecidableEq, Repr

/-- One iteration of `_generate_mjpeg(quality)`.  The body contains no sleep,
yield-to-scheduler or backoff call on any path: each `continue` branch loops
back immediately, so `sleepMs` is `0` throughout. -/
def generate_mjpeg_iter (src : Option CaptureState)
    (encode : Nat → Frame → Option (List Nat)) (quality : Nat) : MjpegIter :=
  match src with
  | none => { action := LoopAction.retryNoSource, sleepMs := 0 }
  | some s =>
    match latestFrameVal s with
    | none => { action := LoopAction.retryNoFrame, sleepMs := 0 }
    | some f =>
      match encode quality f with
      | none => { action := LoopAction.retryEncodeFailed, sleepMs := 0 }
      | some bs => { action := LoopAction.yieldPart bs, sleepMs := 0 }

/-- Whether an iteration retried (did not emit a part) while performing no sleep
and no backoff at all — the tight spin the spec forbids. -/
def retriesWithoutDelay (it : MjpegIter) : Bool :=
  match it.action with
  | LoopAction.yieldPart _ => false
  | _ => it.sleepMs == 0

/-- `main`'s startup: `capture.start()` is called inside a single
`try/except ConnectionError` with no loop around it, so exactly one start
attempt is consumed from the stream of possible outcomes; on `ConnectionError`
the process exits with code 1.  Returns (exit code if the process exits,
number of start attempts made). -/
def mainStartup (startResults : List (Except Unit Unit)) : Option Nat × Nat :=
  match startResults with
  | [] => (none, 0)
  | r :: _ =>
    match r with
    | Except.error _ => (some 1, 1)
    | Except.ok _ => (none, 1)

/-- The `shutdown` signal handler in `main.py`: stop the capture, close the
storage when recording is enabled, and `sys.exit(0)`.  Returns the final
capture state, the final storage state, and the process exit code. -/
def shutdownHandler (cap : CaptureState) (storage : Option VideoStorage) :
    CaptureState × Option VideoStorage × Nat :=
  (stopCapture cap, storage.map closeStorage, 0)

/-! ## Helper lemmas -/

/-- A successful `read_frame` call fully characterized: the returned reference is
the freshly allocated index, the frame is appended to the heap, and the slot now
holds that reference. -/
theorem read_frame_some (s : CaptureState) (v : Frame) (r : Nat) (s' : CaptureState)
    (h : read_frame s (some v) = (some r, s')) :
    r = s.heap.length ∧
    s' = { s with heap := s.heap ++ [v], latest := some s.heap.length } := by
  unfold read_frame at h
  by_cases hc : (s.cap && s.running) = true
  · rw [if_pos hc] at h
    injection h with h1 h2
    injection h1 with h1
    exact ⟨h1.symm, h2.symm⟩
  · rw [if_neg hc] at h
    injection h with h1 h2
    exact absurd h1 (by simp)

/-- `latest_frame` on an empty slot returns no frame and leaves the state alone. -/
theorem latest_frame_of_slotVal_none (s : CaptureState) (h : slotVal s = none) :
    latest_frame s = (none, s) := by
  unfold latest_frame
  rw [h]

/-- `latest_frame` on a non-empty slot allocates a copy of the slot's frame and
returns the fresh reference. -/
theorem latest_frame_of_slotVal_some (s : CaptureState) (f : Frame)
    (h : slotVal s = some f) :
    latest_frame s = (some s.heap.length, { s with heap := s.heap ++ [f] }) := by
  unfold latest_frame
  rw [h]

/-- The value `latest_frame` hands back is exactly the value the slot holds: the
copy has the same contents. -/
theorem latestFrameVal_eq_slotVal (s : CaptureState) : latestFrameVal s = slotVal s := by
  cases h : slotVal s with
  | none =>
    unfold latestFrameVal
    rw [latest_frame_of_slotVal_none s h]
  | some f =>
    unfold latestFrameVal
    rw [latest_frame_of_slotVal_some s f h]
    exact List.getElem?_concat_length ..

/-- Reduction of the snapshot responder once a source is attached, by the value
the slot yields. -/
theorem snapshot_some_none (t : CaptureState) (encode : Nat → Frame → Option (List Nat))
    (hv : latestFrameVal t = none) :
    snapshot (some t) encode = SnapshotResult.errorNoFrame := by
  show (match latestFrameVal t with
        | none => SnapshotResult.errorNoFrame
        | some f =>
          match encode 90 f with
          | none => SnapshotResult.errorEncodeFailed
          | some bs => SnapshotResult.image bs) = SnapshotResult.errorNoFrame
  rw [hv]

/-- Reduction of the snapshot responder when the slot yields a frame. -/
theorem snapshot_some_some (t : CaptureState) (encode : Nat → Frame → Option (List Nat))
    (f : Frame) (hv : latestFrameVal t = some f) :
    snapshot (some t) encode =
      (match encode 90 f with
       | none => SnapshotResult.errorEncodeFailed
       | some bs => SnapshotResult.image bs) := by
  show (match latestFrameVal t with
        | none => SnapshotResult.errorNoFrame
        | some f =>
          match encode 90 f with
          | none => SnapshotResult.errorEncodeFailed
          | some bs => SnapshotResult.image bs) = _
  rw [hv]

/-- A ready capture state (transport open, running, nothing captured yet). -/
def capReady : CaptureState := { heap := [], running := true, cap := true, latest := none }

/-- A concrete 1x1 frame. -/
def frame0 : Frame := { height := 1, width := 1, data := [0] }

/-- A JPEG encoder stand-in that always succeeds with a fixed two-byte image. -/
def encodeConst : Nat → Frame → Option (List Nat) := fun _ _ => some [255, 216]

/-! ## Claims -/

/-- Claim C2: every successful `read_frame` overwrites the LatestFrameSlot with the
returned frame before returning; `latest_frame` then returns a defensive copy
(mutating the returned object leaves the slot's value unchanged); and before any
successful read `latest_frame` returns empty. -/
theorem read_frame_updates_slot_and_copy (s : CaptureState) (v : Frame) (r : Nat)
    (s' : CaptureState) (hread : read_frame s (some v) = (some r, s')) :
    s'.latest = some r ∧
    s'.heap[r]? = some v ∧
    (∀ r' s'', latest_frame s' = (some r', s'') →
       s''.heap[r']? = some v ∧
       ∀ g, slotVal (mutateFrame s'' r' g) = slotVal s'') ∧
    latest_frame initCapture = (none, initCapture) := by
  obtain ⟨hr, hs⟩ := read_frame_some s v r s' hread
  subst hs
  subst hr
  refine ⟨rfl, List.getElem?_concat_length .., ?_, rfl⟩
  intro r' s'' hlf
  have hsv : slotVal { s with heap := s.heap ++ [v], latest := some s.heap.length }
      = some v := by
    simp [slotVal, List.getElem?_concat_length]
  rw [latest_frame_of_slotVal_some _ v hsv] at hlf
  injection hlf with h1 h2
  injection h1 with h1
  subst h2
  subst h1
  refine ⟨List.getElem?_concat_length .., ?_⟩
  intro g
  have hne : (s.heap ++ [v]).length ≠ s.heap.length := by
    simp [List.length_append]
  show ((s.heap ++ [v] ++ [v]).set (s.heap ++ [v]).length g)[s.heap.length]? =
       (s.heap ++ [v] ++ [v])[s.heap.length]?
  exact List.getElem?_set_ne hne

/-- Claim C2 witness: a concrete successful read on a ready source. -/
theorem read_frame_updates_slot_and_copy_witness :
    ({ heap := [frame0], running := true, cap := true,
       latest := some 0 } : CaptureState).latest = some 0 :=
  (read_frame_updates_slot_and_copy capReady frame0 0
    { heap := [frame0], running := true, cap := true, latest := some 0 } rfl).1

/-- Claim C10: `stop()` does not clear the LatestFrameSlot — after a successful
read, `latest_frame` called after `stop()` still returns a copy of the last
captured frame; in general `stop` leaves `latest_frame`'s value unchanged. -/
theorem stop_preserves_latest_frame (s : CaptureState) (v : Frame) (r : Nat)
    (s' : CaptureState) (hread : read_frame s (some v) = (some r, s')) :
    latestFrameVal (stopCapture s') = some v ∧
    ∀ t : CaptureState, latestFrameVal (stopCapture t) = latestFrameVal t := by
  have hstop : ∀ t : CaptureState, latestFrameVal (stopCapture t) = latestFrameVal t := by
    intro t
    rw [latestFrameVal_eq_slotVal, latestFrameVal_eq_slotVal]
    rfl
  refine ⟨?_, hstop⟩
  obtain ⟨hr, hs⟩ := read_frame_some s v r s' hread
  subst hs
  rw [hstop, latestFrameVal_eq_slotVal]
  simp [slotVal, List.getElem?_concat_length]

/-- Claim C10 witness: concrete read, then stop; the slot still yields the frame. -/
theorem stop_preserves_latest_frame_witness :
    latestFrameVal (stopCapture
      { heap := [frame0], running := true, cap := true, latest := some 0 }) = some frame0 :=
  (stop_preserves_latest_frame capReady frame0 0
    { heap := [frame0], running := true, cap := true, latest := some 0 } rfl).1

/-- Claim C5: the snapshot responder returns the explicit unavailable results (it
is a total function, so it never raises) when no source is attached or no frame
has been captured, and returns the non-empty encoded JPEG once a source is
attached and one successful read has happened (provided the external encoder
succeeds with a non-empty buffer, which cv2 does on any valid frame). -/
theorem snapshot_unavailable_and_image (encode : Nat → Frame → Option (List Nat))
    (s : CaptureState) (v : Frame) (r : Nat) (s' : CaptureState) (bs : List Nat)
    (hread : read_frame s (some v) = (some r, s'))
    (henc : encode 90 v = some bs) (hbs : 0 < bs.length) :
    snapshot none encode = SnapshotResult.errorNoSource ∧
    (∀ t : CaptureState, t.latest = none →
       snapshot (some t) encode = SnapshotResult.errorNoFrame) ∧
    snapshot (some s') encode = SnapshotResult.image bs ∧
    0 < bs.length := by
  refine ⟨rfl, ?_, ?_, hbs⟩
  · intro t ht
    refine snapshot_some_none t encode ?_
    rw [latestFrameVal_eq_slotVal]
    simp [slotVal, ht]
  · obtain ⟨hr, hs⟩ := read_frame_some s v r s' hread
    subst hs
    have hv : latestFrameVal { s with heap := s.heap ++ [v], latest := some s.heap.length }
        = some v := by
      rw [latestFrameVal_eq_slotVal]
      simp [slotVal, List.getElem?_concat_length]
    rw [snapshot_some_some _ encode v hv, henc]

/-- Claim C5 witness: after one concrete successful read, the snapshot is the
encoder's image. -/
theorem snapshot_unavailable_and_image_witness :
    snapshot (some { heap := [frame0], running := true, cap := true, latest := some 0 })
      encodeConst = SnapshotResult.image [255, 216] :=
  (snapshot_unavailable_and_image encodeConst capReady frame0 0
    { heap := [frame0], running := true, cap := true, latest := some 0 }
    [255, 216] rfl rfl (by decide)).2.2.1

/-- The rotation check fires when the threshold is positive, a file is current,
and the observed byte size has reached the threshold. -/
theorem should_rotate_true (s : VideoStorage) (b : Nat) (p : Nat)
    (hp : s.currentPath = some p) (hpos : 0 < s.maxFileSizeMB)
    (hsz : s.maxFileSizeMB * 1048576 ≤ (b : Int)) :
    should_rotate s (some b) = true := by
  unfold should_rotate
  rw [if_neg (by omega : ¬ s.maxFileSizeMB ≤ 0), hp]
  simpa using hsz

/-- A non-positive threshold disables the rotation check outright. -/
theorem should_rotate_nonpos (s : VideoStorage) (obs : Option Nat)
    (h : s.maxFileSizeMB ≤ 0) : should_rotate s obs = false := by
  unfold should_rotate
  rw [if_pos h]

/-- Claim C1: on an open Recorder, if the configured maximum file size is
positive and the observed on-disk size has reached it, `write_frame` writes the
triggering frame to the old file, closes that session and immediately opens a
fresh one (frame counter reset, same fps, new path, triggering frame last in
the finalized session — no frame dropped); if the threshold is zero or less,
no rotation ever occurs regardless of the observed size. -/
theorem write_frame_rotation_policy (m : Int) (w : Writer) (f : Frame)
    (b p rotPath fc fv : Nat) (cs : List Writer) :
    (0 < m → m * 1048576 ≤ (b : Int) →
       write_frame ⟨m, some w, some p, fc, fv, cs⟩ f (some b) rotPath true =
         (⟨m, some ⟨f.width, f.height, fv, true, []⟩, some rotPath, 0, fv,
           cs ++ [{ w with frames := w.frames ++ [f] }]⟩, Except.ok ())) ∧
    (m ≤ 0 → ∀ obs rp ok,
       write_frame ⟨m, some w, some p, fc, fv, cs⟩ f obs rp ok =
         (⟨m, some { w with frames := w.frames ++ [f] }, some p, fc + 1, fv, cs⟩,
          Except.ok ())) := by
  constructor
  · intro hpos hsz
    have hrot : should_rotate
        ⟨m, some { w with frames := w.frames ++ [f] }, some p, fc + 1, fv, cs⟩
        (some b) = true :=
      should_rotate_true _ b p rfl hpos hsz
    simp only [write_frame]
    rw [hrot]
    rfl
  · intro hneg obs rp ok
    have hnr : should_rotate
        ⟨m, some { w with frames := w.frames ++ [f] }, some p, fc + 1, fv, cs⟩
        obs = false :=
      should_rotate_nonpos _ obs hneg
    simp only [write_frame]
    rw [hnr]
    rfl

/-- Claim C1 witness: threshold 1 MB, observed size 2 MB — the write lands in
the old session, which is finalized, and a fresh session is open. -/
theorem write_frame_rotation_policy_witness :
    write_frame ⟨1, some ⟨1280, 720, 30, true, []⟩, some 0, 5, 30, []⟩
        frame0 (some 2097152) 1 true =
      (⟨1, some ⟨frame0.width, frame0.height, 30, true, []⟩, some 1, 0, 30,
        [⟨1280, 720, 30, true, [frame0]⟩]⟩, Except.ok ()) :=
  (write_frame_rotation_policy 1 ⟨1280, 720, 30, true, []⟩ frame0 2097152 0 1 5 30 []).1
    (by decide) (by decide)

/-- The C3 claim evaluated on the embedding: after a `write_frame` call on an
open Recorder, does the now-current writer carry the same width/height/fps as
the writer that was current before the call (the resolution/fps the Recorder
was opened with)?  `true` when the claim holds at the given input. -/
def newSessionMatchesClosed (s : VideoStorage) (f : Frame) (obs : Option Nat)
    (p : Nat) (ok : Bool) : Bool :=
  match s.writer, (write_frame s f obs p ok).1.writer with
  | some wOld, some wNew =>
    wNew.width == wOld.width && wNew.height == wOld.height && wNew.fps == wOld.fps
  | _, _ => true

/-- Claim C3 counterexample: a Recorder opened at 1280x720 (threshold 1 MB),
rotation triggered by a 640x360 frame at observed size 2 MB — a rotation does
occur (one session was finalized), and the new session is opened at the frame's
640x360, not at the resolution the Recorder was opened with. -/
theorem rotation_resolution_counterexample :
    newSessionMatchesClosed ⟨1, some ⟨1280, 720, 30, true, []⟩, some 0, 0, 30, []⟩
        ⟨360, 640, [0]⟩ (some 2097152) 1 true = false ∧
    (write_frame ⟨1, some ⟨1280, 720, 30, true, []⟩, some 0, 0, 30, []⟩
        ⟨360, 640, [0]⟩ (some 2097152) 1 true).1.closedSessions.length = 1 := by
  decide

/-- Claim C3 amended: every rotation triggered by `write_frame` opens the new
RecordingSession with the triggering frame's width and height and with the fps
the Recorder holds (which equals the opened fps); the resolution matches the one
the Recorder was opened with only when the frame has those dimensions. -/
theorem rotation_uses_frame_resolution (m : Int) (w : Writer) (f : Frame)
    (b p rotPath fc fv : Nat) (cs : List Writer)
    (hpos : 0 < m) (hsz : m * 1048576 ≤ (b : Int)) :
    (write_frame ⟨m, some w, some p, fc, fv, cs⟩ f (some b) rotPath true).1.writer =
      some ⟨f.width, f.height, fv, true, []⟩ ∧
    (write_frame ⟨m, some w, some p, fc, fv, cs⟩ f (some b) rotPath true).1.fps = fv := by
  have hrot := should_rotate_true
    (⟨m, some { w with frames := w.frames ++ [f] }, some p, fc + 1, fv, cs⟩ : VideoStorage)
    b p rfl hpos hsz
  constructor <;> (simp only [write_frame]; rw [hrot]; rfl)

/-- Claim C3 amended, witness: a concrete rotation re-opens at the 16x8 frame's
size with the stored 25 fps. -/
theorem rotation_uses_frame_resolution_witness :
    (write_frame ⟨2, some ⟨100, 50, 25, true, []⟩, some 3, 7, 25, []⟩
        ⟨8, 16, [1]⟩ (some 3000000) 4 true).1.writer = some ⟨16, 8, 25, true, []⟩ :=
  (rotation_uses_frame_resolution 2 ⟨100, 50, 25, true, []⟩ ⟨8, 16, [1]⟩ 3000000 3 4 7 25 []
    (by decide) (by decide)).1

/-- Claim C4 (evidence for a code defect): with no source attached, and likewise
with a source attached but no frame captured yet, an iteration of the MJPEG
generator loop retries with zero sleep and no yield — the tight spin the spec
forbids (it requires a yield, sleep, or backoff on every such iteration). -/
theorem mjpeg_no_frame_iteration_spins :
    generate_mjpeg_iter none encodeConst 80 =
      { action := LoopAction.retryNoSource, sleepMs := 0 } ∧
    generate_mjpeg_iter (some initCapture) encodeConst 80 =
      { action := LoopAction.retryNoFrame, sleepMs := 0 } ∧
    retriesWithoutDelay (generate_mjpeg_iter none encodeConst 80) = true ∧
    retriesWithoutDelay (generate_mjpeg_iter (some initCapture) encodeConst 80) = true :=
  ⟨rfl, rfl, rfl, rfl⟩

/-- Claim C6: on a Closed Recorder — a state whose writer field is `none`, which
is what `initStorage` produces and what `closeStorage` leaves behind —
`write_frame` fails with the InvalidState kind, writes nothing, and returns the
state exactly as it was. -/
theorem write_frame_closed_invalid_state (s : VideoStorage) (f : Frame)
    (obs : Option Nat) (p : Nat) (ok : Bool) (cfg : StorageConfig) (t : VideoStorage) :
    write_frame { s with writer := none } f obs p ok =
      ({ s with writer := none }, Except.error StorageError.invalidState) ∧
    (initStorage cfg).writer = none ∧
    (closeStorage t).writer = none := by
  refine ⟨rfl, rfl, ?_⟩
  obtain ⟨m, wr, cp, fc, fv, cs⟩ := t
  cases wr <;> rfl

/-- Claim C7: `stop()` on the FrameSource and `close()` on the Recorder are
idempotent — calling either twice in a row yields the same state as calling it
once. -/
theorem stop_close_idempotent (c : CaptureState) (s : VideoStorage) :
    stopCapture (stopCapture c) = stopCapture c ∧
    closeStorage (closeStorage s) = closeStorage s := by
  refine ⟨rfl, ?_⟩
  obtain ⟨m, wr, cp, fc, fv, cs⟩ := s
  cases wr <;> rfl

/-- Claim C8: a ConnectionError from `capture.start()` makes the process exit
with code 1 after exactly one start attempt (no retry), and the shutdown signal
handler stops the capture, closes the storage when recording is enabled, and
exits with code 0. -/
theorem startup_and_shutdown_exit_codes (rest : List (Except Unit Unit))
    (c : CaptureState) (st : Option VideoStorage) :
    mainStartup (Except.error () :: rest) = (some 1, 1) ∧
    (shutdownHandler c st).2.2 = 0 ∧
    (shutdownHandler c st).1 = stopCapture c ∧
    (shutdownHandler c st).2.1 = st.map closeStorage :=
  ⟨rfl, rfl, rfl, rfl⟩

/-- On any state whose writer field is set, `write_frame` returns ok, or the
IOError kind when a rotation re-open fails — never the InvalidState kind. -/
theorem write_frame_open_not_invalid (m : Int) (w' : Writer) (cp : Option Nat)
    (fc fv : Nat) (cs : List Writer) (f : Frame) (obs : Option Nat) (rp : Nat)
    (ok : Bool) :
    (write_frame ⟨m, some w', cp, fc, fv, cs⟩ f obs rp ok).2 = Except.ok () ∨
    (write_frame ⟨m, some w', cp, fc, fv, cs⟩ f obs rp ok).2 =
      Except.error StorageError.ioError := by
  simp only [write_frame]
  cases hr : should_rotate
      ⟨m, some { w' with frames := w'.frames ++ [f] }, cp, fc + 1, fv, cs⟩ obs
  · left
    rfl
  · cases ok
    · right
      rfl
    · left
      rfl

/-- Claim C9: when `open()` fails because the writer cannot be created, the
Recorder's state is not rolled back — the current path is already the new
file's and the writer field already holds the (unopened) writer — so a
subsequent `write_frame` does not fail with the InvalidState kind: it returns
ok, or the IOError kind if its own rotation re-open fails. -/
theorem failed_open_no_rollback (s : VideoStorage) (w h fp p : Nat) :
    (openStorage s w h fp p false).2 = Except.error StorageError.ioError ∧
    (openStorage s w h fp p false).1.currentPath = some p ∧
    (openStorage s w h fp p false).1.writer = some ⟨w, h, fp, false, []⟩ ∧
    ∀ f obs rp ok,
      (write_frame (openStorage s w h fp p false).1 f obs rp ok).2 = Except.ok () ∨
      (write_frame (openStorage s w h fp p false).1 f obs rp ok).2 =
        Except.error StorageError.ioError := by
  refine ⟨rfl, rfl, rfl, ?_⟩
  intro f obs rp ok
  exact write_frame_open_not_invalid s.maxFileSizeMB ⟨w, h, fp, false, []⟩ (some p)
    s.frameCount fp s.closedSessions f obs rp ok

end RouteBall
